import Mathlib

/-!
Verification development for the Windows OS-mount tools of the coriolis
repository (`coriolis/osmorphing/osmount/windows.py`).

The remote machine reached through the WinRM connection is modelled as an
abstract state type `σ` together with a record of oracles, one per remote
command issued by the source code.  Commands that only read remote state
(`Get-Disk ...`, `$env:SystemDrive`, `get-psdrive`, `test_path`) are pure
functions of the state; commands that mutate remote state (`Set-Disk`,
`Set-Partition`, diskpart service scripts) are (possibly fallible) state
transitions.  Textual output that the source splits into lines is modelled
at the line level; the Python string primitives actually used by the code
(`str.split(sep)`, `s[:-1]`, `str.isnumeric`, whitespace `str.split()`)
are embedded as executable functions on `List Char` / `String`.
-/

set_option autoImplicit false

namespace Coriolis

/-! ## Python string primitives -/

/-- Fuel-indexed worker for `pySplit`.  The fuel starts at the length of the
string being split and strictly decreases at every step, so the fuel-zero
fallback case is never reached for a non-empty separator; it is present only
to make the recursion structural. -/
def pySplitGo (sep : List Char) : Nat → List Char → List Char → List (List Char)
  | _, [], acc => [acc.reverse]
  | 0, s, acc => [acc.reverse ++ s]
  | fuel + 1, a :: rest, acc =>
    if sep.isPrefixOf (a :: rest) then
      acc.reverse :: pySplitGo sep fuel (List.drop (sep.length - 1) rest) []
    else
      pySplitGo sep fuel rest (a :: acc)

/-- Python `s.split(sep)` for a non-empty separator `sep`: split `s` at every
occurrence of `sep`, keeping empty chunks.  Python raises `ValueError` on an
empty separator; the connection line-ending used by the source is the fixed
non-empty CRLF constant, so the empty-separator case (modelled here as
returning the whole string) never arises. -/
def pySplit (sep s : List Char) : List (List Char) :=
  if sep = [] then [s] else pySplitGo sep s.length s []

/-- Python `s.split(sep)` on `String`s. -/
def pySplitStr (sep s : String) : List String :=
  (pySplit sep.data s.data).map fun l => String.mk l

/-- Python `s[:-1]`: drop the last character (identity on the empty string). -/
def pyDropLast (s : String) : String :=
  String.mk s.data.dropLast

/-- Python `s.isnumeric()` restricted to the ASCII digits that appear in
diskpart/PowerShell numeric columns: non-empty and all digits. -/
def pyIsNumeric (s : String) : Bool :=
  decide (s.data ≠ []) && s.data.all Char.isDigit

/-- ASCII whitespace, as matched by Python's no-argument `str.split()` on
the ASCII command output handled here. -/
def pyIsSpace (c : Char) : Bool :=
  c = ' ' || c = '\t' || c = '\n' || c = '\r' || c = '\x0b' || c = '\x0c'

/-- Python `s.split()` with no argument: split on runs of whitespace,
discarding empty chunks (so leading and trailing whitespace is ignored). -/
def pySplitWs (s : String) : List String :=
  ((s.data.splitOnP pyIsSpace).filter fun l => l ≠ []).map fun l => String.mk l

/-! ## Errors

All errors raised or caught by the source module are `CoriolisException`
subclasses (`coriolis/exception.py`): `NotAuthorized`,
`OperatingSystemNotFound`, and the base class used both for the
"No filesystems found" branch and for generic remote-execution failures. -/

/-- Exception values observable by this module.  `notAuthorized` and
`operatingSystemNotFound` are the two subclasses the code distinguishes;
every other `CoriolisException` (remote-execution failures included) is
represented by `coriolisException`. -/
inductive CorErr where
  | notAuthorized
  | operatingSystemNotFound (msg : String)
  | coriolisException (msg : String)
deriving DecidableEq

/-! ## `check_os` -/

/-- Embedding of `WindowsMountTools.check_os`.  The single remote query
`(get-ciminstance Win32_OperatingSystem).Caption` is abstracted by its
result: `query_result` is what `exec_ps_command` returned (`.ok` output) or
raised (`.error`).  `NotAuthorized` is re-raised; any other
`CoriolisException` is swallowed and the probe returns `False`; a
successful query returns `True`. -/
def check_os (query_result : Except CorErr String) : Except CorErr Bool :=
  match query_result with
  | .ok _ => .ok true
  | .error CorErr.notAuthorized => .error CorErr.notAuthorized
  | .error _ => .ok false

/-! ## Diskpart disk servicing (`_service_disks_with_status`)

`_run_diskpart_script` writes the script to a fresh temp file and runs
`diskpart.exe /s` on it; at this level of the model only the script's
observable effect matters, so the machine record exposes the two scripts
the servicing loop runs: the fixed `LIST DISK` script (a read of remote
state) and the per-disk service script obtained by formatting a disk ID
into `service_script_with_id_fmt` (a fallible state transition).

A line of `LIST DISK` output is modelled as `Option (String × String)`:
`some (id, st)` stands for a line of the form
`<whitespace>Disk <id><whitespace><st><whitespace>...` (the shape matched
by the regex `\s+Disk (<id>)\s+<st>\s+`), and `none` for any other line
(headers, separators, blank lines).  Under this reading,
`re.match(disk_entry_re % (disk_id, status), line)` succeeds exactly when
the line is `some (disk_id, status)`, and the candidate-collecting regex
`disk_entry_re % ("[0-9]+", status)` matches exactly the lines
`some (id, status)` whose `id` is a non-empty digit string. -/

/-- Oracles for the two diskpart scripts used by
`_service_disks_with_status` on remote state `σ`.  Running `LIST DISK`
does not change the observable disk state; running the formatted service
script on a disk either succeeds with a new remote state or raises
(`none`). -/
structure DiskMachine (σ : Type) where
  listDisks : σ → List (Option (String × String))
  runService : String → σ → Option σ

/-- Result of one servicing pass: the final remote state (or the state at
the moment an exception propagated) together with the trace of disk IDs on
which the service script was run (in order, including a failed run). -/
inductive SvcOutcome (σ : Type) where
  | ok (s : σ) (ops : List String)
  | err (s : σ) (ops : List String)
deriving DecidableEq

/-- Prepend a serviced disk ID to the trace of an outcome. -/
def svcCons {σ : Type} (d : String) : SvcOutcome σ → SvcOutcome σ
  | .ok s ops => .ok s (d :: ops)
  | .err s ops => .err s (d :: ops)

/-- Trace of disk IDs on which the service script was run. -/
def svcOps {σ : Type} : SvcOutcome σ → List String
  | .ok _ ops => ops
  | .err _ ops => ops

/-- Whether the pass ended with a propagated exception. -/
def svcIsErr {σ : Type} : SvcOutcome σ → Bool
  | .ok _ _ => false
  | .err _ _ => true

/-- Match of the per-disk re-check regex `\s+Disk (<d>)\s+<status>\s+`
against one listing line. -/
def lineMatches (d status : String) (l : Option (String × String)) : Bool :=
  decide (l = some (d, status))

/-- Candidate disk IDs collected from the initial `LIST DISK` output by the
search regex `\s+Disk ([0-9]+)\s+<status>\s+`, in listing order. -/
def candidatesOf (status : String) (listing : List (Option (String × String))) :
    List String :=
  listing.filterMap fun l =>
    match l with
    | some (id, st) => if pyIsNumeric id = true ∧ st = status then some id else none
    | none => none

/-- Embedding of the `for disk_id in servicable_disk_ids` loop of
`_service_disks_with_status`.  For each candidate: skip it if it is in
`skips`; otherwise re-run `LIST DISK` and scan its lines, and at the first
line still matching this disk ID and the target status run the service
script once (the Python loop `break`s after it); if the script raises, log
and continue when `skipOnError` is set, otherwise propagate.  If no line
matches any more, the disk is skipped silently. -/
def serviceLoop {σ : Type} (M : DiskMachine σ) (status : String)
    (skipOnError : Bool) (skips : List String) :
    List String → σ → SvcOutcome σ
  | [], s => .ok s []
  | d :: rest, s =>
    if d ∈ skips then
      serviceLoop M status skipOnError skips rest s
    else if (M.listDisks s).any (lineMatches d status) then
      match M.runService d s with
      | some s' => svcCons d (serviceLoop M status skipOnError skips rest s')
      | none =>
        if skipOnError then
          svcCons d (serviceLoop M status skipOnError skips rest s)
        else
          .err s [d]
    else
      serviceLoop M status skipOnError skips rest s

/-- Embedding of `_service_disks_with_status`: collect the candidate disk
IDs from one initial `LIST DISK` run, then service them in listing order.
`disk_ids_to_skip=None` defaults to the empty list in the source. -/
def service_disks_with_status {σ : Type} (M : DiskMachine σ) (status : String)
    (skipOnError : Bool) (diskIdsToSkip : List String) (s : σ) : SvcOutcome σ :=
  serviceLoop M status skipOnError diskIdsToSkip
    (candidatesOf status (M.listDisks s)) s

/-! ## PowerShell-level remote machine (`mount_os` / `dismount_os`)

Each `exec_ps_command` issued by the mount orchestration is represented by
one oracle.  Queries whose output the source immediately `splitlines()`es
(the three `Get-Disk`/`Get-Partition` number queries) are modelled as
returning the resulting list of lines; a Python string is empty exactly
when its `splitlines()` is `[]`, so the `if partitions:` truthiness test
of `_set_volumes_drive_letter` is modelled as a `≠ []` test on the lines.
The filesystem-root enumeration output is kept as a raw string (the source
splits it itself on the connection EOL) and is indexed by the retry attempt
number, since the remote disk state may evolve between retry attempts.
`Set-Disk` failures are `CoriolisException`s caught by the source's
best-effort loops; `Set-Partition` is not wrapped in a `try` and therefore
propagates. -/

/-- Oracles for the remote commands used by `mount_os`/`dismount_os` on
remote state `σ`. -/
structure WinMachine (σ : Type) where
  queryOfflineDiskNums : σ → List String
  setDiskOnline : String → σ → Except CorErr σ
  queryReadOnlyDiskNums : σ → List String
  setDiskReadWrite : String → σ → Except CorErr σ
  queryNonBootDiskNums : σ → List String
  setDiskOffline : String → σ → Except CorErr σ
  queryBasicPartitionLines : σ → List String
  setPartitionDefaultLetter : String → String → σ → Except CorErr σ
  fsRootsOutput : σ → Nat → String
  eol : String
  systemDrive : σ → String
  testPath : σ → String → Bool

/-- Per-disk loop of `_bring_disks_online`: attempt `Set-Disk -IsOffline
$False` on every listed disk; a `CoriolisException` is logged and the loop
continues with the old state.  Returns the final state and the trace of
disk numbers attempted. -/
def onlineLoop {σ : Type} (M : WinMachine σ) : List String → σ → σ × List String
  | [], s => (s, [])
  | n :: rest, s =>
    let s' := match M.setDiskOnline n s with
      | .ok s2 => s2
      | .error _ => s
    let r := onlineLoop M rest s'
    (r.1, n :: r.2)

/-- Embedding of `_bring_disks_online(disk_nums=None)`: when no list is
passed, the offline disks are queried first. -/
def bring_disks_online {σ : Type} (M : WinMachine σ) (disk_nums : Option (List String))
    (s : σ) : σ × List String :=
  onlineLoop M (disk_nums.getD (M.queryOfflineDiskNums s)) s

/-- Per-disk loop of `_set_basic_disks_rw_mode`: attempt `Set-Disk
-IsReadOnly $False` on every listed disk, logging and continuing on
`CoriolisException`. -/
def rwLoop {σ : Type} (M : WinMachine σ) : List String → σ → σ × List String
  | [], s => (s, [])
  | n :: rest, s =>
    let s' := match M.setDiskReadWrite n s with
      | .ok s2 => s2
      | .error _ => s
    let r := rwLoop M rest s'
    (r.1, n :: r.2)

/-- Embedding of `_set_basic_disks_rw_mode`: query the read-only disks,
then clear the flag best-effort per disk. -/
def set_basic_disks_rw_mode {σ : Type} (M : WinMachine σ) (s : σ) : σ × List String :=
  rwLoop M (M.queryReadOnlyDiskNums s) s

/-- Per-disk loop of `_bring_nonboot_disks_offline`: attempt `Set-Disk
-IsOffline $True` on every listed disk, logging and continuing on
`CoriolisException`. -/
def offlineLoop {σ : Type} (M : WinMachine σ) : List String → σ → σ × List String
  | [], s => (s, [])
  | n :: rest, s =>
    let s' := match M.setDiskOffline n s with
      | .ok s2 => s2
      | .error _ => s
    let r := offlineLoop M rest s'
    (r.1, n :: r.2)

/-- Embedding of `_bring_nonboot_disks_offline(disk_nums=None)`: when no
list is passed, the non-boot disks are queried first. -/
def bring_nonboot_disks_offline {σ : Type} (M : WinMachine σ)
    (disk_nums : Option (List String)) (s : σ) : σ × List String :=
  offlineLoop M (disk_nums.getD (M.queryNonBootDiskNums s)) s

/-- Embedding of `_rebring_disks_online`: cycle the given disks offline and
back online. -/
def rebring_disks_online {σ : Type} (M : WinMachine σ)
    (disk_nums : Option (List String)) (s : σ) : σ :=
  (bring_disks_online M disk_nums (bring_nonboot_disks_offline M disk_nums s).1).1

/-- Per-line loop of `_set_volumes_drive_letter`: whitespace-split each
partition line; skip lines with fewer than two tokens or non-numeric
disk/partition tokens; otherwise run `Set-Partition` (a failure
propagates, the call is not wrapped in a `try`) and record the disk
number.  Returns the new state and the recorded disk numbers in order. -/
def svdlLoop {σ : Type} (M : WinMachine σ) :
    List String → σ → Except CorErr (σ × List String)
  | [], s => .ok (s, [])
  | line :: restLines, s =>
    match pySplitWs line with
    | d :: p :: _ =>
      if pyIsNumeric d = true ∧ pyIsNumeric p = true then
        match M.setPartitionDefaultLetter d p s with
        | .error e => .error e
        | .ok s' =>
          match svdlLoop M restLines s' with
          | .error e => .error e
          | .ok (s'', nums) => .ok (s'', d :: nums)
      else
        svdlLoop M restLines s
    | _ => svdlLoop M restLines s

/-- Embedding of `_set_volumes_drive_letter`: if the Basic-partition query
returned no output the step is a no-op; otherwise process every line and
finish by cycling the recorded disks offline and back online. -/
def set_volumes_drive_letter {σ : Type} (M : WinMachine σ) (s : σ) :
    Except CorErr σ :=
  let partLines := M.queryBasicPartitionLines s
  if partLines = [] then .ok s
  else
    match svdlLoop M partLines s with
    | .error e => .error e
    | .ok (s', disk_nums) => .ok (rebring_disks_online M (some disk_nums) s')

/-- Embedding of `_get_fs_roots`: split the enumeration output on the
connection EOL and fail with `CoriolisException("No filesystems found")`
when the resulting list is empty and `fail_if_empty` is set. -/
def get_fs_roots (output eol : String) (fail_if_empty : Bool) :
    Except CorErr (List String) :=
  let drives := pySplitStr eol output
  if drives.length = 0 ∧ fail_if_empty = true then
    .error (.coriolisException "No filesystems found")
  else
    .ok drives

/-- Modelled from the spec: worker for `utils.retry_on_error` (the retry
decorator lives in `coriolis/utils.py`, outside this repository snapshot).
`n` is the number of attempts still allowed after the current one and `k`
the zero-based index of the current attempt; a success returns
immediately, a failure on a non-final attempt sleeps and retries, and a
failure on the final attempt propagates.  The second component is the
total number of attempts made. -/
def retryGo {ε α : Type} (f : Nat → Except ε α) : Nat → Nat → Except ε α × Nat
  | 0, k => (f k, k + 1)
  | n + 1, k =>
    match f k with
    | .ok a => (.ok a, k + 1)
    | .error _ => retryGo f n (k + 1)

/-- Modelled from the spec: `utils.retry_on_error` retries the wrapped call
a fixed number of attempts with a fixed sleep (in seconds, not modelled as
real time) between attempts, returning the first success and re-raising
the last failure after exhausting the attempts. -/
def retry_on_error {ε α : Type} (maxAttempts sleepSeconds : Nat)
    (f : Nat → Except ε α) : Except ε α × Nat :=
  retryGo f (maxAttempts - 1) 0

/-- Modelled from the spec: the fixed number of attempts configured for the
retry wrapper around filesystem-root discovery (`utils.retry_on_error`'s
default attempt count). -/
def retryMaxAttempts : Nat := 10

/-- Embedding of the final loop of `mount_os`:
`for fs_root in [r for r in fs_roots if not r[:-1] == system_drive]:` —
skip the root whose path minus its trailing character equals the reported
system drive, return the first remaining root whose
`<root>Windows\System32` path exists (paired with `None` metadata), and
raise `OperatingSystemNotFound` when no root qualifies. -/
def selectOsRoot (system_drive : String) (test_path : String → Bool) :
    List String → Except CorErr (String × Option Unit)
  | [] => .error (.operatingSystemNotFound "root partition not found")
  | r :: rest =>
    if pyDropLast r = system_drive then
      selectOsRoot system_drive test_path rest
    else if test_path (r ++ "Windows\\System32") then
      .ok (r, none)
    else
      selectOsRoot system_drive test_path rest

/-- Preparation phase of `mount_os`: bring offline disks online, clear
read-only flags (both best-effort), then force drive-letter assignment
(whose `Set-Partition` failures propagate). -/
def mountPrep {σ : Type} (M : WinMachine σ) (s : σ) : Except CorErr σ :=
  set_volumes_drive_letter M
    (set_basic_disks_rw_mode M (bring_disks_online M none s).1).1

/-- Embedding of `mount_os`: after the preparation phase, discover the
filesystem roots under the retry wrapper (`sleep_seconds=5`, default
attempt count), query the system drive, and select the OS root. -/
def mount_os {σ : Type} (M : WinMachine σ) (s : σ) :
    Except CorErr (String × Option Unit) :=
  match mountPrep M s with
  | .error e => .error e
  | .ok s3 =>
    match (retry_on_error retryMaxAttempts 5
        (fun n => get_fs_roots (M.fsRootsOutput s3 n) M.eol true)).1 with
    | .error e => .error e
    | .ok fs_roots => selectOsRoot (M.systemDrive s3) (M.testPath s3) fs_roots

/-- Embedding of `dismount_os(root_drive)`: bring every non-boot disk
offline; the `root_drive` argument is not used. -/
def dismount_os {σ : Type} (M : WinMachine σ) (root_drive : String) (s : σ) :
    σ × List String :=
  bring_nonboot_disks_offline M none s

/-! ## Helper lemmas -/

theorem pySplitGo_ne_nil (sep : List Char) :
    ∀ (fuel : Nat) (s acc : List Char), pySplitGo sep fuel s acc ≠ [] := by
  intro fuel
  induction fuel with
  | zero => intro s acc; cases s <;> simp [pySplitGo]
  | succ n ih =>
    intro s acc
    cases s with
    | nil => simp [pySplitGo]
    | cons a rest =>
      simp only [pySplitGo]
      split
      · simp
      · exact ih rest (a :: acc)

theorem pySplitStr_ne_nil (sep s : String) : pySplitStr sep s ≠ [] := by
  unfold pySplitStr pySplit
  split
  · simp
  · simp [pySplitGo_ne_nil]

theorem get_fs_roots_eq_ok (output eol : String) (b : Bool) :
    get_fs_roots output eol b = .ok (pySplitStr eol output) := by
  have h := pySplitStr_ne_nil eol output
  simp [get_fs_roots, List.length_eq_zero, h]

theorem retryGo_first_ok {ε α : Type} (f : Nat → Except ε α) (a : α)
    (h : f 0 = .ok a) : ∀ n, retryGo f n 0 = (.ok a, 1) := by
  intro n
  cases n with
  | zero => simp [retryGo, h]
  | succ m => simp [retryGo, h]

theorem mount_os_eq_select {σ : Type} (M : WinMachine σ) (s s3 : σ)
    (h : mountPrep M s = .ok s3) :
    mount_os M s = selectOsRoot (M.systemDrive s3) (M.testPath s3)
      (pySplitStr M.eol (M.fsRootsOutput s3 0)) := by
  have hr := retryGo_first_ok (fun n => get_fs_roots (M.fsRootsOutput s3 n) M.eol true)
    (pySplitStr M.eol (M.fsRootsOutput s3 0))
    (get_fs_roots_eq_ok (M.fsRootsOutput s3 0) M.eol true) (retryMaxAttempts - 1)
  simp [mount_os, retry_on_error, h, hr]

theorem selectOsRoot_ok_spec (sysd : String) (tp : String → Bool) :
    ∀ (roots : List String) (r : String) (meta : Option Unit),
      selectOsRoot sysd tp roots = .ok (r, meta) →
      meta = none ∧ pyDropLast r ≠ sysd ∧ tp (r ++ "Windows\\System32") = true ∧
        ∃ l1 l2, roots = l1 ++ r :: l2 ∧
          ∀ r' ∈ l1, pyDropLast r' = sysd ∨ tp (r' ++ "Windows\\System32") = false := by
  intro roots
  induction roots with
  | nil => intro r meta h; simp [selectOsRoot] at h
  | cons a rest ih =>
    intro r meta h
    by_cases hd : pyDropLast a = sysd
    · rw [selectOsRoot, if_pos hd] at h
      obtain ⟨hm, hnd, htp, l1, l2, heq, hall⟩ := ih r meta h
      refine ⟨hm, hnd, htp, a :: l1, l2, by rw [heq]; rfl, ?_⟩
      intro r' hr'
      rcases List.mem_cons.mp hr' with hra | hrl
      · exact Or.inl (hra ▸ hd)
      · exact hall r' hrl
    · by_cases ht : tp (a ++ "Windows\\System32") = true
      · rw [selectOsRoot, if_neg hd, if_pos ht] at h
        rw [Except.ok.injEq, Prod.mk.injEq] at h
        obtain ⟨hra, hmeta⟩ := h
        subst hra; subst hmeta
        exact ⟨rfl, hd, ht, [], rest, rfl, by intro r' hr'; simp at hr'⟩
      · rw [selectOsRoot, if_neg hd, if_neg ht] at h
        obtain ⟨hm, hnd, htp, l1, l2, heq, hall⟩ := ih r meta h
        refine ⟨hm, hnd, htp, a :: l1, l2, by rw [heq]; rfl, ?_⟩
        intro r' hr'
        rcases List.mem_cons.mp hr' with hra | hrl
        · exact Or.inr (hra ▸ (Bool.not_eq_true _ ▸ ht))
        · exact hall r' hrl

theorem selectOsRoot_none (sysd : String) (tp : String → Bool) :
    ∀ roots : List String,
      (∀ r ∈ roots, pyDropLast r = sysd ∨ tp (r ++ "Windows\\System32") = false) →
      selectOsRoot sysd tp roots =
        .error (.operatingSystemNotFound "root partition not found") := by
  intro roots
  induction roots with
  | nil => intro _; rfl
  | cons a rest ih =>
    intro hall
    rcases hall a (List.mem_cons_self a rest) with hd | ht
    · rw [selectOsRoot, if_pos hd]
      exact ih fun r hr => hall r (List.mem_cons_of_mem a hr)
    · by_cases hd : pyDropLast a = sysd
      · rw [selectOsRoot, if_pos hd]
        exact ih fun r hr => hall r (List.mem_cons_of_mem a hr)
      · rw [selectOsRoot, if_neg hd, if_neg (by simp [ht])]
        exact ih fun r hr => hall r (List.mem_cons_of_mem a hr)

theorem selectOsRoot_exists_ok (sysd : String) (tp : String → Bool) :
    ∀ roots : List String,
      (∃ r ∈ roots, pyDropLast r ≠ sysd ∧ tp (r ++ "Windows\\System32") = true) →
      ∃ r, selectOsRoot sysd tp roots = .ok (r, none) := by
  intro roots
  induction roots with
  | nil => intro h; simp at h
  | cons a rest ih =>
    intro h
    by_cases hd : pyDropLast a = sysd
    · rw [selectOsRoot, if_pos hd]
      apply ih
      obtain ⟨r, hr, hnd, htp⟩ := h
      rcases List.mem_cons.mp hr with hra | hrl
      · exact absurd (hra ▸ hd) hnd
      · exact ⟨r, hrl, hnd, htp⟩
    · by_cases ht : tp (a ++ "Windows\\System32") = true
      · exact ⟨a, by rw [selectOsRoot, if_neg hd, if_pos ht]⟩
      · rw [selectOsRoot, if_neg hd, if_neg ht]
        apply ih
        obtain ⟨r, hr, hnd, htp⟩ := h
        rcases List.mem_cons.mp hr with hra | hrl
        · exact absurd (hra ▸ htp) ht
        · exact ⟨r, hrl, hnd, htp⟩

theorem svcOps_svcCons {σ : Type} (d : String) (o : SvcOutcome σ) :
    svcOps (svcCons d o) = d :: svcOps o := by
  cases o <;> rfl

theorem svcIsErr_svcCons {σ : Type} (d : String) (o : SvcOutcome σ) :
    svcIsErr (svcCons d o) = svcIsErr o := by
  cases o <;> rfl

theorem serviceLoop_skip {σ : Type} (M : DiskMachine σ) (status : String)
    (b : Bool) (skips : List String) (d : String) (rest : List String) (s : σ)
    (h : d ∈ skips) :
    serviceLoop M status b skips (d :: rest) s =
      serviceLoop M status b skips rest s := by
  simp [serviceLoop, h]

theorem serviceLoop_nomatch {σ : Type} (M : DiskMachine σ) (status : String)
    (b : Bool) (skips : List String) (d : String) (rest : List String) (s : σ)
    (h1 : d ∉ skips) (h2 : (M.listDisks s).any (lineMatches d status) = false) :
    serviceLoop M status b skips (d :: rest) s =
      serviceLoop M status b skips rest s := by
  simp [serviceLoop, h1, h2]

theorem serviceLoop_match_ok {σ : Type} (M : DiskMachine σ) (status : String)
    (b : Bool) (skips : List String) (d : String) (rest : List String) (s s' : σ)
    (h1 : d ∉ skips) (h2 : (M.listDisks s).any (lineMatches d status) = true)
    (h3 : M.runService d s = some s') :
    serviceLoop M status b skips (d :: rest) s =
      svcCons d (serviceLoop M status b skips rest s') := by
  simp [serviceLoop, h1, h2, h3]

theorem serviceLoop_match_fail_skip {σ : Type} (M : DiskMachine σ) (status : String)
    (skips : List String) (d : String) (rest : List String) (s : σ)
    (h1 : d ∉ skips) (h2 : (M.listDisks s).any (lineMatches d status) = true)
    (h3 : M.runService d s = none) :
    serviceLoop M status true skips (d :: rest) s =
      svcCons d (serviceLoop M status true skips rest s) := by
  simp [serviceLoop, h1, h2, h3]

theorem serviceLoop_match_fail_prop {σ : Type} (M : DiskMachine σ) (status : String)
    (skips : List String) (d : String) (rest : List String) (s : σ)
    (h1 : d ∉ skips) (h2 : (M.listDisks s).any (lineMatches d status) = true)
    (h3 : M.runService d s = none) :
    serviceLoop M status false skips (d :: rest) s = .err s [d] := by
  simp [serviceLoop, h1, h2, h3]

theorem serviceLoop_ops_sublist {σ : Type} (M : DiskMachine σ) (status : String)
    (b : Bool) (skips : List String) :
    ∀ (cands : List String) (s : σ),
      List.Sublist (svcOps (serviceLoop M status b skips cands s)) cands := by
  intro cands
  induction cands with
  | nil => intro s; simp [serviceLoop, svcOps]
  | cons d rest ih =>
    intro s
    by_cases h1 : d ∈ skips
    · rw [serviceLoop_skip M status b skips d rest s h1]
      exact (ih s).cons d
    · cases h2 : (M.listDisks s).any (lineMatches d status) with
      | false =>
        rw [serviceLoop_nomatch M status b skips d rest s h1 h2]
        exact (ih s).cons d
      | true =>
        cases h3 : M.runService d s with
        | some s' =>
          rw [serviceLoop_match_ok M status b skips d rest s s' h1 h2 h3,
            svcOps_svcCons]
          exact (ih s').cons₂ d
        | none =>
          cases b with
          | true =>
            rw [serviceLoop_match_fail_skip M status skips d rest s h1 h2 h3,
              svcOps_svcCons]
            exact (ih s).cons₂ d
          | false =>
            rw [serviceLoop_match_fail_prop M status skips d rest s h1 h2 h3]
            exact (List.nil_sublist rest).cons₂ d

theorem serviceLoop_skipped_not_serviced {σ : Type} (M : DiskMachine σ)
    (status : String) (b : Bool) (skips : List String) (d : String)
    (hd : d ∈ skips) :
    ∀ (cands : List String) (s : σ),
      d ∉ svcOps (serviceLoop M status b skips cands s) := by
  intro cands
  induction cands with
  | nil => intro s; simp [serviceLoop, svcOps]
  | cons c rest ih =>
    intro s
    by_cases h1 : c ∈ skips
    · rw [serviceLoop_skip M status b skips c rest s h1]
      exact ih s
    · have hdc : d ≠ c := fun h => h1 (h ▸ hd)
      cases h2 : (M.listDisks s).any (lineMatches c status) with
      | false =>
        rw [serviceLoop_nomatch M status b skips c rest s h1 h2]
        exact ih s
      | true =>
        cases h3 : M.runService c s with
        | some s' =>
          rw [serviceLoop_match_ok M status b skips c rest s s' h1 h2 h3,
            svcOps_svcCons]
          simp [hdc, ih s']
        | none =>
          cases b with
          | true =>
            rw [serviceLoop_match_fail_skip M status skips c rest s h1 h2 h3,
              svcOps_svcCons]
            simp [hdc, ih s]
          | false =>
            rw [serviceLoop_match_fail_prop M status skips c rest s h1 h2 h3]
            simp [svcOps, hdc]

theorem serviceLoop_skipOnError_no_err {σ : Type} (M : DiskMachine σ)
    (status : String) (skips : List String) :
    ∀ (cands : List String) (s : σ),
      svcIsErr (serviceLoop M status true skips cands s) = false := by
  intro cands
  induction cands with
  | nil => intro s; rfl
  | cons d rest ih =>
    intro s
    by_cases h1 : d ∈ skips
    · rw [serviceLoop_skip M status true skips d rest s h1]
      exact ih s
    · cases h2 : (M.listDisks s).any (lineMatches d status) with
      | false =>
        rw [serviceLoop_nomatch M status true skips d rest s h1 h2]
        exact ih s
      | true =>
        cases h3 : M.runService d s with
        | some s' =>
          rw [serviceLoop_match_ok M status true skips d rest s s' h1 h2 h3,
            svcIsErr_svcCons]
          exact ih s'
        | none =>
          rw [serviceLoop_match_fail_skip M status skips d rest s h1 h2 h3,
            svcIsErr_svcCons]
          exact ih s

theorem onlineLoop_trace {σ : Type} (M : WinMachine σ) :
    ∀ (nums : List String) (s : σ), (onlineLoop M nums s).2 = nums := by
  intro nums
  induction nums with
  | nil => intro s; rfl
  | cons n rest ih => intro s; simp [onlineLoop, ih]

theorem rwLoop_trace {σ : Type} (M : WinMachine σ) :
    ∀ (nums : List String) (s : σ), (rwLoop M nums s).2 = nums := by
  intro nums
  induction nums with
  | nil => intro s; rfl
  | cons n rest ih => intro s; simp [rwLoop, ih]

theorem offlineLoop_trace {σ : Type} (M : WinMachine σ) :
    ∀ (nums : List String) (s : σ), (offlineLoop M nums s).2 = nums := by
  intro nums
  induction nums with
  | nil => intro s; rfl
  | cons n rest ih => intro s; simp [offlineLoop, ih]

/-! ## Concrete machines for the spec scenarios -/

/-- Remote machine of the spec's `mount_os` scenario: filesystem roots
`C:\`, `D:\`, `E:\`, system drive `C:`, and only `E:\Windows\System32`
present; no disks are offline or read-only and no Basic partition lacks a
drive letter. -/
def c1ScenarioMachine : WinMachine Unit :=
  { queryOfflineDiskNums := fun _ => []
    setDiskOnline := fun _ _ => .ok ()
    queryReadOnlyDiskNums := fun _ => []
    setDiskReadWrite := fun _ _ => .ok ()
    queryNonBootDiskNums := fun _ => []
    setDiskOffline := fun _ _ => .ok ()
    queryBasicPartitionLines := fun _ => []
    setPartitionDefaultLetter := fun _ _ _ => .ok ()
    fsRootsOutput := fun _ _ => "C:\\\r\nD:\\\r\nE:\\"
    eol := "\r\n"
    systemDrive := fun _ => "C:"
    testPath := fun _ p => p == "E:\\Windows\\System32" }

/-- Disk states of the spec's servicing scenario before the operation:
disks 0 and 1 `Foreign`, disk 2 `Online`. -/
def c2State0 : List (String × String) :=
  [("0", "Foreign"), ("1", "Foreign"), ("2", "Online")]

/-- Disk states after servicing disk 0, whose operation also flips disk 1
to `Online` as a group side effect. -/
def c2State1 : List (String × String) :=
  [("0", "Online"), ("1", "Online"), ("2", "Online")]

/-- Diskpart machine of the spec's servicing scenario: the listing reports
the disk table verbatim, and servicing disk 0 moves the whole group to
`c2State1`; servicing any other disk would leave the state unchanged. -/
def c2Machine : DiskMachine (List (String × String)) :=
  { listDisks := fun s => s.map some
    runService := fun d s => if d = "0" then some c2State1 else some s }

/-- Diskpart machine with a single `Foreign` disk whose service script
succeeds without changing the listing. -/
def c3Machine : DiskMachine Unit :=
  { listDisks := fun _ => [some ("0", "Foreign")]
    runService := fun _ _ => some () }

/-- Diskpart machine with two `Foreign` disks on which every service
script raises. -/
def c4FailMachine : DiskMachine Unit :=
  { listDisks := fun _ => [some ("0", "Foreign"), some ("1", "Foreign")]
    runService := fun _ _ => none }

/-- Diskpart machine with one `Foreign` and one `Online` disk whose
service script succeeds without changing the listing; its candidate list
for status `Foreign` has no duplicate IDs. -/
def c10NodupMachine : DiskMachine Unit :=
  { listDisks := fun _ => [some ("0", "Foreign"), some ("1", "Online")]
    runService := fun _ _ => some () }

/-- Diskpart machine whose listing contains two lines for the same disk ID
`0` with status `Foreign`, and whose service script succeeds without
changing the listing. -/
def c10DupMachine : DiskMachine Unit :=
  { listDisks := fun _ => [some ("0", "Foreign"), some ("0", "Foreign")]
    runService := fun _ _ => some () }

/-! ## Claim theorems -/

/-- Claim C1: for every list of discovered filesystem roots and every
system-drive path, `mount_os` tests each root except the system drive
(the root whose path minus its trailing separator equals the system
drive) for the `Windows\System32` marker under that root, returns the
first root in enumeration order for which the marker exists paired with
`None` metadata, never returns the system drive, and fails with
`OperatingSystemNotFound` when no non-system root contains the marker;
in the spec scenario (roots `C:\`, `D:\`, `E:\`, system drive `C:`, only
`E:\Windows\System32` present) it returns `E:\`. -/
theorem mount_os_selects_first_nonsystem_marker_root {σ : Type}
    (M : WinMachine σ) (s s3 : σ) (roots : List String) (sysd : String)
    (hprep : mountPrep M s = .ok s3)
    (hroots : pySplitStr M.eol (M.fsRootsOutput s3 0) = roots)
    (hsysd : M.systemDrive s3 = sysd) :
    (∀ (r : String) (meta : Option Unit), mount_os M s = .ok (r, meta) →
      meta = none ∧ pyDropLast r ≠ sysd ∧
      M.testPath s3 (r ++ "Windows\\System32") = true ∧
      ∃ l1 l2, roots = l1 ++ r :: l2 ∧
        ∀ r' ∈ l1, pyDropLast r' = sysd ∨
          M.testPath s3 (r' ++ "Windows\\System32") = false)
    ∧ ((∀ r ∈ roots, pyDropLast r = sysd ∨
          M.testPath s3 (r ++ "Windows\\System32") = false) →
        mount_os M s = .error (.operatingSystemNotFound "root partition not found"))
    ∧ ((∃ r ∈ roots, pyDropLast r ≠ sysd ∧
          M.testPath s3 (r ++ "Windows\\System32") = true) →
        ∃ r, mount_os M s = .ok (r, none))
    ∧ mount_os c1ScenarioMachine () = .ok ("E:\\", none) := by
  have heq : mount_os M s = selectOsRoot sysd (M.testPath s3) roots := by
    rw [mount_os_eq_select M s s3 hprep, hroots, hsysd]
  refine ⟨?_, ?_, ?_, rfl⟩
  · intro r meta h
    exact selectOsRoot_ok_spec sysd (M.testPath s3) roots r meta (heq ▸ h)
  · intro hall
    rw [heq]
    exact selectOsRoot_none sysd (M.testPath s3) roots hall
  · intro hex
    obtain ⟨r, hr⟩ := selectOsRoot_exists_ok sysd (M.testPath s3) roots hex
    exact ⟨r, heq ▸ hr⟩

theorem mount_os_selects_first_nonsystem_marker_root_witness :
    ∃ r, mount_os c1ScenarioMachine () = .ok (r, none) :=
  (mount_os_selects_first_nonsystem_marker_root c1ScenarioMachine () ()
    ["C:\\", "D:\\", "E:\\"] "C:" rfl rfl rfl).2.2.1
    ⟨"E:\\", by decide, by decide, rfl⟩

/-- Claim C2: immediately before operating on a candidate disk the listing
is re-run and the candidate's line re-checked against the target status;
if no line for that disk still matches, the disk is skipped silently with
no operation issued and the pass continues unchanged.  In the spec
scenario (disks 0 and 1 `Foreign`, disk 2 `Online`, where servicing disk 0
also flips disk 1 to `Online`), exactly one operation is issued, on disk
0, and disk 1 is never operated on. -/
theorem service_disks_recheck_skips_changed_disk :
    (∀ {σ : Type} (M : DiskMachine σ) (status : String) (b : Bool)
        (skips : List String) (d : String) (rest : List String) (s : σ),
      d ∉ skips →
      (M.listDisks s).any (lineMatches d status) = false →
      serviceLoop M status b skips (d :: rest) s =
        serviceLoop M status b skips rest s)
    ∧ service_disks_with_status c2Machine "Foreign" false [] c2State0 =
        .ok c2State1 ["0"]
    ∧ "1" ∉ svcOps (service_disks_with_status c2Machine "Foreign" false [] c2State0) := by
  refine ⟨?_, by decide, by decide⟩
  intro σ M status b skips d rest s h1 h2
  exact serviceLoop_nomatch M status b skips d rest s h1 h2

theorem service_disks_recheck_skips_changed_disk_witness :
    serviceLoop c2Machine "Foreign" false [] ["1"] c2State1 =
      serviceLoop c2Machine "Foreign" false [] [] c2State1 :=
  service_disks_recheck_skips_changed_disk.1 c2Machine "Foreign" false []
    "1" [] c2State1 (by decide) (by decide)

/-- Claim C3: for every disk listing, target status and skip set,
`_service_disks_with_status` never runs the service operation on a disk
whose ID is in `disk_ids_to_skip`, even when its listing line matches the
target status. -/
theorem service_disks_never_operates_on_skipped {σ : Type}
    (M : DiskMachine σ) (status : String) (b : Bool) (skips : List String)
    (s : σ) (d : String) (hd : d ∈ skips) :
    d ∉ svcOps (service_disks_with_status M status b skips s) :=
  serviceLoop_skipped_not_serviced M status b skips d hd
    (candidatesOf status (M.listDisks s)) s

theorem service_disks_never_operates_on_skipped_witness :
    "0" ∉ svcOps (service_disks_with_status c3Machine "Foreign" false ["0"] ()) :=
  service_disks_never_operates_on_skipped c3Machine "Foreign" false ["0"] ()
    "0" (by decide)

/-- Claim C4: with `skip_on_error=False` the first operation failure
propagates immediately and no operation is issued on any remaining
candidate (the trace stops at the failing disk); with
`skip_on_error=True` the failure is logged, the failing disk's turn ends,
the remaining candidates are processed from the same state, and the pass
never propagates an error. -/
theorem service_disks_error_policy :
    (∀ {σ : Type} (M : DiskMachine σ) (status : String) (skips : List String)
        (cands : List String) (s : σ),
      svcIsErr (serviceLoop M status true skips cands s) = false)
    ∧ (∀ {σ : Type} (M : DiskMachine σ) (status : String) (skips : List String)
        (d : String) (rest : List String) (s : σ),
      d ∉ skips →
      (M.listDisks s).any (lineMatches d status) = true →
      M.runService d s = none →
      serviceLoop M status false skips (d :: rest) s = .err s [d])
    ∧ (∀ {σ : Type} (M : DiskMachine σ) (status : String) (skips : List String)
        (d : String) (rest : List String) (s : σ),
      d ∉ skips →
      (M.listDisks s).any (lineMatches d status) = true →
      M.runService d s = none →
      serviceLoop M status true skips (d :: rest) s =
        svcCons d (serviceLoop M status true skips rest s)) := by
  refine ⟨?_, ?_, ?_⟩
  · intro σ M status skips cands s
    exact serviceLoop_skipOnError_no_err M status skips cands s
  · intro σ M status skips d rest s h1 h2 h3
    exact serviceLoop_match_fail_prop M status skips d rest s h1 h2 h3
  · intro σ M status skips d rest s h1 h2 h3
    exact serviceLoop_match_fail_skip M status skips d rest s h1 h2 h3

theorem service_disks_error_policy_witness :
    serviceLoop c4FailMachine "Foreign" false [] ["0", "1"] () = .err () ["0"] :=
  service_disks_error_policy.2.1 c4FailMachine "Foreign" [] "0" ["1"] ()
    (by decide) (by decide) (by decide)

/-- Claim C5 (divergence evidence): splitting the enumeration output on
the connection EOL never yields an empty list, so `_get_fs_roots` with
`fail_if_empty=True` always succeeds on its first attempt and the retry
wrapper makes exactly one attempt, never sleeping and never raising the
empty-result error; in particular, when the enumeration output is empty
(no filesystem roots at all) the discovery returns `[""]` after one
attempt instead of retrying and failing. -/
theorem fs_roots_discovery_single_attempt :
    retry_on_error retryMaxAttempts 5 (fun _ => get_fs_roots "" "\r\n" true) =
      (.ok [""], 1)
    ∧ (∀ (output : Nat → String) (eol : String),
        retry_on_error retryMaxAttempts 5
            (fun n => get_fs_roots (output n) eol true) =
          (.ok (pySplitStr eol (output 0)), 1)) := by
  refine ⟨rfl, ?_⟩
  intro output eol
  exact retryGo_first_ok _ _ (get_fs_roots_eq_ok (output 0) eol true) _

/-- Claim C6: `check_os` propagates an authorization failure to its caller
in every case, returns `False` on any other remote-execution failure of
the OS-identification query, and returns `True` when the query
succeeds. -/
theorem check_os_error_policy :
    (∀ v : String, check_os (.ok v) = .ok true)
    ∧ check_os (.error CorErr.notAuthorized) = .error CorErr.notAuthorized
    ∧ (∀ e : CorErr, e ≠ CorErr.notAuthorized → check_os (.error e) = .ok false) := by
  refine ⟨fun v => rfl, rfl, ?_⟩
  intro e he
  cases e with
  | notAuthorized => exact absurd rfl he
  | operatingSystemNotFound m => rfl
  | coriolisException m => rfl

theorem check_os_error_policy_witness :
    check_os (.error (.coriolisException "remote failure")) = .ok false :=
  check_os_error_policy.2.2 (.coriolisException "remote failure") (by decide)

/-- Claim C7: the best-effort `mount_os` steps — bringing offline disks
online and clearing the read-only flag — are total (a per-disk failure is
caught, logged and the loop continues from the old state), and they
attempt the per-disk operation on every disk of the list regardless of
which operations fail: the attempt trace always equals the full disk
list. -/
theorem best_effort_online_rw_attempt_all {σ : Type} (M : WinMachine σ)
    (nums : List String) (s : σ) :
    (onlineLoop M nums s).2 = nums
    ∧ (bring_disks_online M (some nums) s).2 = nums
    ∧ (bring_disks_online M none s).2 = M.queryOfflineDiskNums s
    ∧ (rwLoop M nums s).2 = nums
    ∧ (set_basic_disks_rw_mode M s).2 = M.queryReadOnlyDiskNums s :=
  ⟨onlineLoop_trace M nums s, onlineLoop_trace M nums s,
    onlineLoop_trace M (M.queryOfflineDiskNums s) s,
    rwLoop_trace M nums s, rwLoop_trace M (M.queryReadOnlyDiskNums s) s⟩

/-- Claim C8: `dismount_os(root)` brings every non-boot disk offline
best-effort per disk — the attempt trace equals the whole queried
non-boot disk list regardless of per-disk failures — and its behaviour is
identical for any two values of the `root` argument, which does not gate
or alter the operation. -/
theorem dismount_os_root_independent_best_effort {σ : Type}
    (M : WinMachine σ) (root1 root2 : String) (s : σ) :
    dismount_os M root1 s = dismount_os M root2 s
    ∧ (dismount_os M root1 s).2 = M.queryNonBootDiskNums s :=
  ⟨rfl, offlineLoop_trace M (M.queryNonBootDiskNums s) s⟩

/-- Claim C9: splitting any enumeration output on the (non-empty)
line-ending separator produces at least one element, so `_get_fs_roots`
returns the split list for every output and every `fail_if_empty` flag —
its internal "No filesystems found" branch is unreachable and the
function never raises that error. -/
theorem get_fs_roots_empty_branch_unreachable (output eol : String)
    (b : Bool) (heol : eol ≠ "") :
    get_fs_roots output eol b = .ok (pySplitStr eol output)
    ∧ 1 ≤ (pySplitStr eol output).length :=
  ⟨get_fs_roots_eq_ok output eol b,
    List.length_pos.mpr (pySplitStr_ne_nil eol output)⟩

theorem get_fs_roots_empty_branch_unreachable_witness :
    get_fs_roots "" "\r\n" true = .ok (pySplitStr "\r\n" "")
    ∧ 1 ≤ (pySplitStr "\r\n" "").length :=
  get_fs_roots_empty_branch_unreachable "" "\r\n" true (by decide)

/-- Claim C10 (counterexample): when the initial listing contains two
matching lines for the same disk ID, that ID appears twice in the
candidate list and the service script is executed twice for it in a
single pass, refuting "each candidate disk ID has the service script
executed at most once per pass" as stated. -/
theorem service_disks_duplicate_listing_services_twice :
    svcOps (service_disks_with_status c10DupMachine "Foreign" false [] ()) =
      ["0", "0"]
    ∧ ¬ List.count "0"
        (svcOps (service_disks_with_status c10DupMachine "Foreign" false [] ())) ≤ 1 := by
  exact ⟨by decide, by decide⟩

/-- Claim C10 (amended): in every pass the trace of serviced disks is a
sublist of the candidate list extracted from the single initial listing —
so the candidate set is fixed by that listing, candidates are serviced in
listing order, and the script runs at most once per candidate-list entry
— and whenever the initial candidate list has no duplicate IDs, each
disk ID has the service script executed at most once per pass. -/
theorem service_disks_ops_within_initial_candidates {σ : Type}
    (M : DiskMachine σ) (status : String) (b : Bool) (skips : List String)
    (s : σ) :
    List.Sublist (svcOps (service_disks_with_status M status b skips s))
      (candidatesOf status (M.listDisks s))
    ∧ ((candidatesOf status (M.listDisks s)).Nodup →
        ∀ id, List.count id
          (svcOps (service_disks_with_status M status b skips s)) ≤ 1) := by
  have hsub := serviceLoop_ops_sublist M status b skips
    (candidatesOf status (M.listDisks s)) s
  refine ⟨hsub, ?_⟩
  intro hnodup id
  exact List.nodup_iff_count_le_one.mp (hsub.nodup hnodup) id

theorem service_disks_ops_within_initial_candidates_witness :
    ∀ id, List.count id
      (svcOps (service_disks_with_status c10NodupMachine "Foreign" false [] ())) ≤ 1 :=
  (service_disks_ops_within_initial_candidates c10NodupMachine "Foreign" false []
    ()).2 (by decide)

end Coriolis
